import Mathlib

/-!
# Verification of the fixed-income linear products module

A shallow embedding of `fixedincomelib/product/linear_products.py`:
the product variants (`ProductBulletCashflow`, `ProductFixedAccrued`,
`ProductOvernightIndexCashflow`), the schedule-driven `InterestRateStream`,
and the two-leg `ProductRFRSwap`, together with the serialization and
visitor contracts.

External collaborators (calendar arithmetic, schedule generation, accrual
computation, index resolution) are abstracted as an explicit environment
`Env`; Python floats are embedded as rationals, and raised exceptions as
an `Except` error channel whose variants follow the spec's error taxonomy.
-/

namespace FIL

/-- Modelled from the spec: `fixedincomelib.date.Date` is not under `src/`.
A calendar date, carried by its ISO-8601 rendering; `ISO` renders it and
the `Date(string)` constructor parses the same rendering back. -/
structure Date where
  iso : String
deriving DecidableEq, Repr

/-- `Date.ISO`: the ISO-8601 string of the date (mirrors `Date.ISO()`). -/
def Date.ISO (d : Date) : String := d.iso

/-- Modelled from the spec: `fixedincomelib.date.Period` is not under `src/`.
A tenor such as "3M" or "0D", carried by its tag. -/
structure Period where
  tag : String
deriving DecidableEq, Repr

/-- Currency code wrapper (`fixedincomelib.market.Currency`, not under `src/`). -/
structure Currency where
  code : String
deriving DecidableEq, Repr

/-- Day-count basis wrapper (`fixedincomelib.market.AccrualBasis`, not under `src/`). -/
structure AccrualBasis where
  name : String
deriving DecidableEq, Repr

/-- Business-day rolling convention wrapper (not under `src/`). -/
structure BusinessDayConvention where
  name : String
deriving DecidableEq, Repr

/-- Holiday calendar name wrapper (not under `src/`). -/
structure HolidayConvention where
  name : String
deriving DecidableEq, Repr

/-- `fixedincomelib.product.utilities.LongOrShort` (not under `src/`):
the direction flag stored on every product. -/
inductive LongOrShort where
  | LONG
  | SHORT
deriving DecidableEq, Repr

/-- `fixedincomelib.product.utilities.PayOrReceive` (not under `src/`):
the contractual direction of the fixed leg of a swap. -/
inductive PayOrReceive where
  | PAY
  | RECEIVE
deriving DecidableEq, Repr

/-- Modelled from the spec: `CompoundingMethod` (in
`fixedincomelib.market.data_conventions`, not under `src/`); the rule for
combining daily index fixings (compound vs. simple average). -/
inductive CompoundingMethod where
  | COMPOUND
  | AVERAGE
deriving DecidableEq, Repr

/-- `CompoundingMethod.to_string` (modelled from the spec: serialization
stores the upper-cased string form of the method). -/
def CompoundingMethod.to_string : CompoundingMethod → String
  | .COMPOUND => "COMPOUND"
  | .AVERAGE => "AVERAGE"

/-- `CompoundingMethod.from_string` (modelled from the spec: the parsing
inverse of `to_string`; unknown strings are a parsing failure). -/
def CompoundingMethod.from_string (s : String) : Option CompoundingMethod :=
  if s = "COMPOUND" then some .COMPOUND
  else if s = "AVERAGE" then some .AVERAGE
  else none

/-- Modelled from the spec: `fixedincomelib.date.TermOrTerminationDate` is
not under `src/`. Either an explicit termination date or a tenor to be
resolved against a calendar. -/
inductive TermOrTerminationDate where
  | date (d : Date)
  | term (p : Period)
deriving DecidableEq, Repr

/-- `TermOrTerminationDate.is_term` (modelled from the spec). -/
def TermOrTerminationDate.is_term : TermOrTerminationDate → Bool
  | .date _ => false
  | .term _ => true

/-- Modelled from the spec: deserialization wraps an ISO-8601 date string
in `TermOrTerminationDate`, which recognises it as an explicit date. -/
def TermOrTerminationDate.ofString (s : String) : TermOrTerminationDate :=
  .date (Date.mk s)

/-- The resolved overnight index returned by the index registry: its
currency code, fixing calendar, and default business-day convention
(spec §2, Calendar/Index Service). -/
structure OvernightIndex where
  currencyCode : String
  fixingCalendar : String
  businessDayConvention : String
deriving DecidableEq, Repr

/-- One row of a generated payment schedule: `{StartDate, EndDate, PaymentDate}`. -/
structure ScheduleRow where
  StartDate : Date
  EndDate : Date
  PaymentDate : Date
deriving DecidableEq, Repr

/-- The argument record of `make_schedule` as called by
`InterestRateStream.__init__` (the function itself lives in
`fixedincomelib.date`, outside `src/`, and is abstracted in `Env`). -/
structure MakeScheduleArgs where
  start_date : Date
  end_date : Date
  accrual_period : Period
  holiday_convention : HolidayConvention
  business_day_convention : BusinessDayConvention
  accrual_basis : AccrualBasis
  rule : String
  end_of_month : Bool
  fix_in_arrear : Bool
  fixing_offset : Period
  payment_offset : Period
  payment_business_day_convention : BusinessDayConvention
  payment_holiday_convention : HolidayConvention
deriving DecidableEq, Repr

/-- The external Calendar/Index Service and date utilities (spec §6),
passed explicitly: index resolution, calendar advance, schedule
generation, and accrual computation. -/
structure Env where
  index_registry : String → Option OvernightIndex
  advance : String → Date → Period → String → Date
  make_schedule : MakeScheduleArgs → List ScheduleRow
  accrued : Date → Date → AccrualBasis → BusinessDayConvention → HolidayConvention → Rat

/-- The error taxonomy of spec §7; every raised exception of the module is
embedded as one of these variants. -/
inductive ProductError where
  | ConfigurationError
  | LookupError
  | BoundsError
  | ParsingError
deriving DecidableEq, Repr

/-- `ProductBulletCashflow` (src lines 35-62): a single payment on
`termination_date`; note the constructor takes `long_or_short` as an
explicit argument. The misspelt field name `paymnet_date_` is the
source's. -/
structure ProductBulletCashflow where
  first_date_ : Date
  last_date_ : Date
  long_or_short_ : LongOrShort
  notional_ : Rat
  currency_ : Currency
  paymnet_date_ : Date
deriving DecidableEq, Repr

/-- `ProductBulletCashflow.__init__` (src lines 40-54). -/
def ProductBulletCashflow.make (termination_date : Date) (currency : Currency)
    (notional : Rat) (long_or_short : LongOrShort)
    (payment_date : Option Date) : ProductBulletCashflow :=
  { first_date_ := termination_date
    last_date_ := termination_date
    long_or_short_ := long_or_short
    notional_ := notional
    currency_ := currency
    paymnet_date_ := payment_date.getD termination_date }

/-- `ProductFixedAccrued` (src lines 65-131): a fixed accrued amount over
`[effective_date, termination_date]`, with the accrued computed eagerly
at construction. -/
structure ProductFixedAccrued where
  effective_date_ : Date
  first_date_ : Date
  termination_date_ : Date
  last_date_ : Date
  long_or_short_ : LongOrShort
  notional_ : Rat
  currency_ : Currency
  accrual_basis_ : AccrualBasis
  business_day_convention_ : BusinessDayConvention
  holiday_convention_ : HolidayConvention
  paymnet_date_ : Date
  accrued_ : Rat
deriving DecidableEq, Repr

/-- `ProductFixedAccrued.__init__` (src lines 70-103): derives
`long_or_short` as LONG iff `notional >= 0`, defaults the payment date to
the termination date, and computes the accrued via the external `accrued`
function. -/
def ProductFixedAccrued.make (env : Env) (effective_date termination_date : Date)
    (currency : Currency) (notional : Rat) (accrual_basis : AccrualBasis)
    (payment_date : Option Date)
    (business_day_convention : BusinessDayConvention)
    (holiday_convention : HolidayConvention) : ProductFixedAccrued :=
  { effective_date_ := effective_date
    first_date_ := effective_date
    termination_date_ := termination_date
    last_date_ := termination_date
    long_or_short_ := if notional ≥ 0 then LongOrShort.LONG else LongOrShort.SHORT
    notional_ := notional
    currency_ := currency
    accrual_basis_ := accrual_basis
    business_day_convention_ := business_day_convention
    holiday_convention_ := holiday_convention
    paymnet_date_ := payment_date.getD termination_date
    accrued_ := env.accrued effective_date termination_date accrual_basis
      business_day_convention holiday_convention }

/-- `ProductOvernightIndexCashflow` (src lines 134-239): a floating
cashflow over a compounded overnight index; the currency is derived from
the resolved index; the termination date is either explicit or the
effective date advanced by the tenor under the index's fixing calendar. -/
structure ProductOvernightIndexCashflow where
  on_index_str_ : String
  on_index_ : OvernightIndex
  first_date_ : Date
  effective_date_ : Date
  termination_date_ : Date
  last_date_ : Date
  paymentDate_ : Date
  notional_ : Rat
  long_or_short_ : LongOrShort
  compounding_method_ : CompoundingMethod
  spread_ : Rat
  currency_ : Currency
deriving DecidableEq, Repr

/-- `ProductOvernightIndexCashflow.__init__` (src lines 139-178): resolves
the index from the registry (a missing name is a lookup failure,
propagated), resolves the termination date, defaults the payment date to
termination, and derives `long_or_short` as LONG iff `notional >= 0`. -/
def ProductOvernightIndexCashflow.make (env : Env) (effective_date : Date)
    (term_or_termination_date : TermOrTerminationDate) (on_index : String)
    (compounding_method : CompoundingMethod) (spread notional : Rat)
    (payment_date : Option Date) :
    Except ProductError ProductOvernightIndexCashflow :=
  match env.index_registry on_index with
  | none => .error .LookupError
  | some idx =>
    let termination : Date :=
      match term_or_termination_date with
      | .date d => d
      | .term p => env.advance idx.fixingCalendar effective_date p idx.businessDayConvention
    .ok
      { on_index_str_ := on_index
        on_index_ := idx
        first_date_ := effective_date
        effective_date_ := effective_date
        termination_date_ := termination
        last_date_ := termination
        paymentDate_ := payment_date.getD termination
        notional_ := notional
        long_or_short_ := if notional ≥ 0 then LongOrShort.LONG else LongOrShort.SHORT
        compounding_method_ := compounding_method
        spread_ := spread
        currency_ := Currency.mk idx.currencyCode }

/-- Python's `str.upper()` as used by `serialize` on the compounding
method string: upper-case every character. -/
def str_upper (s : String) : String := String.mk (s.data.map Char.toUpper)

/-- The canonical serialization dict of `ProductOvernightIndexCashflow`
(src lines 207-218, spec §6): fixed key set, dates as ISO-8601 strings. -/
structure OICSerializedDict where
  VERSION : Nat
  TYPE : String
  EFFECTIVE_DATE : String
  TERMINATION_DATE : String
  PAYMENT_DATE : String
  ON_INDEX : String
  SPREAD : Rat
  COMPOUNDING_METHOD : String
  NOTIONAL : Rat
deriving DecidableEq, Repr

/-- `ProductOvernightIndexCashflow._version` (src line 136). -/
def ProductOvernightIndexCashflow.version : Nat := 1

/-- `ProductOvernightIndexCashflow._product_type` (src line 137). -/
def ProductOvernightIndexCashflow.product_type : String :=
  "PRODUCT_OVERNIGHT_INDEX_CASHFLOW"

/-- `ProductOvernightIndexCashflow.serialize` (src lines 207-218). -/
def ProductOvernightIndexCashflow.serialize
    (x : ProductOvernightIndexCashflow) : OICSerializedDict :=
  { VERSION := ProductOvernightIndexCashflow.version
    TYPE := ProductOvernightIndexCashflow.product_type
    EFFECTIVE_DATE := x.effective_date_.ISO
    TERMINATION_DATE := x.termination_date_.ISO
    PAYMENT_DATE := x.paymentDate_.ISO
    ON_INDEX := x.on_index_str_
    SPREAD := x.spread_
    COMPOUNDING_METHOD := str_upper x.compounding_method_.to_string
    NOTIONAL := x.notional_ }

/-- `ProductOvernightIndexCashflow.deserialize` (src lines 220-239):
re-parse each field and rebuild through the constructor; an unknown
compounding-method string is a parsing failure. -/
def ProductOvernightIndexCashflow.deserialize (env : Env)
    (input_dict : OICSerializedDict) :
    Except ProductError ProductOvernightIndexCashflow :=
  match CompoundingMethod.from_string input_dict.COMPOUNDING_METHOD with
  | none => .error .ParsingError
  | some compounding_method =>
    ProductOvernightIndexCashflow.make env
      (Date.mk input_dict.EFFECTIVE_DATE)
      (TermOrTerminationDate.ofString input_dict.TERMINATION_DATE)
      input_dict.ON_INDEX
      compounding_method
      input_dict.SPREAD
      input_dict.NOTIONAL
      (some (Date.mk input_dict.PAYMENT_DATE))

/-- The closed set of concrete cashflow product variants a portfolio can
hold (spec §2; `ProductRFRFuture` is an unimplemented placeholder,
excluded from the functional contract per spec §9). -/
inductive CashflowProduct where
  | bullet (b : ProductBulletCashflow)
  | fixedAccrued (f : ProductFixedAccrued)
  | overnight (o : ProductOvernightIndexCashflow)
deriving DecidableEq, Repr

/-- Modelled from the spec: `ProductVisitor` (in
`fixedincomelib.product.product_interfaces`, not under `src/`): one
handler per concrete product variant (spec §4.5). -/
structure ProductVisitor (α : Type) where
  visit_bullet_cashflow : ProductBulletCashflow → α
  visit_fixed_accrued : ProductFixedAccrued → α
  visit_overnight_index_cashflow : ProductOvernightIndexCashflow → α

/-- `accept(visitor)` (src lines 204-205 for the overnight variant, base
class modelled from the spec for the others): double dispatch to the
handler of the product's concrete variant, returning its result. -/
def CashflowProduct.accept {α : Type} :
    CashflowProduct → ProductVisitor α → α
  | .bullet b, v => v.visit_bullet_cashflow b
  | .fixedAccrued f, v => v.visit_fixed_accrued f
  | .overnight o, v => v.visit_overnight_index_cashflow o

/-- The tag naming a product's concrete variant, used to state which
visitor handler a dispatch must reach. -/
inductive VariantTag where
  | bulletTag
  | fixedAccruedTag
  | overnightTag
deriving DecidableEq, Repr

/-- The variant tag of a cashflow product. -/
def CashflowProduct.variant : CashflowProduct → VariantTag
  | .bullet _ => .bulletTag
  | .fixedAccrued _ => .fixedAccruedTag
  | .overnight _ => .overnightTag

/-- Instrument a visitor so that each handler also reports its own tag:
running a product through the traced visitor records exactly which
handlers were invoked, in order. -/
def ProductVisitor.traced {α : Type} (v : ProductVisitor α) :
    ProductVisitor (List VariantTag × α) :=
  { visit_bullet_cashflow := fun b => ([.bulletTag], v.visit_bullet_cashflow b)
    visit_fixed_accrued := fun f => ([.fixedAccruedTag], v.visit_fixed_accrued f)
    visit_overnight_index_cashflow := fun o =>
      ([.overnightTag], v.visit_overnight_index_cashflow o) }

/-- Modelled from the spec: `ProductPortfolio` (in
`fixedincomelib.product.product_portfolio`, not under `src/`): an ordered
weighted collection of products, `len(products) == len(weights)`,
element-by-index access with bounds checking, never mutated after
construction (spec §3, §4.2). -/
structure ProductPortfolio where
  products : List CashflowProduct
  weights : List Rat
deriving DecidableEq, Repr

/-- `ProductPortfolio.num_elements` (spec §4.2). -/
def ProductPortfolio.num_elements (p : ProductPortfolio) : Nat :=
  p.products.length

/-- `ProductPortfolio.element(i)` (spec §4.2): the i-th (product, weight)
pair, or a bounds failure outside `[0, num_elements)`. -/
def ProductPortfolio.element (p : ProductPortfolio) (i : Nat) :
    Except ProductError (CashflowProduct × Rat) :=
  match p.products[i]?, p.weights[i]? with
  | some a, some w => .ok (a, w)
  | _, _ => .error .BoundsError

/-- The parameter record of `InterestRateStream.__init__` (src lines
263-289), one field per Python parameter, with the source's misspelling
`buseinss_day_convention` kept; optional parameters' defaults are
supplied by callers exactly as the Python defaults. -/
structure StreamArgs where
  effective_date : Date
  termination_date : Date
  accrual_period : Period
  notional : Rat
  currency : Currency
  accrual_basis : AccrualBasis
  buseinss_day_convention : BusinessDayConvention
  holiday_convention : HolidayConvention
  float_index : Option String
  fixed_rate : Option Rat
  is_on_index : Bool
  ois_compounding : CompoundingMethod
  ois_spread : Rat
  fixing_in_arrear : Bool
  payment_offset : Period
  payment_business_day_convention : BusinessDayConvention
  payment_holiday_convention : HolidayConvention
  rule : String
  end_of_month : Bool
deriving DecidableEq, Repr

/-- The `make_schedule` call of `InterestRateStream.__init__` (src lines
296-298), with `fixing_offset=Period("0D")` hard-coded as in the source. -/
def StreamArgs.scheduleArgs (a : StreamArgs) : MakeScheduleArgs :=
  { start_date := a.effective_date
    end_date := a.termination_date
    accrual_period := a.accrual_period
    holiday_convention := a.holiday_convention
    business_day_convention := a.buseinss_day_convention
    accrual_basis := a.accrual_basis
    rule := a.rule
    end_of_month := a.end_of_month
    fix_in_arrear := a.fixing_in_arrear
    fixing_offset := Period.mk "0D"
    payment_offset := a.payment_offset
    payment_business_day_convention := a.payment_business_day_convention
    payment_holiday_convention := a.payment_holiday_convention }

/-- The fixed-leg unit built for one schedule row (src line 307): a
`ProductFixedAccrued` over `(StartDate, EndDate)` with
`notional * fixed_rate` passed as the notional argument. -/
def StreamArgs.fixedUnit (env : Env) (a : StreamArgs) (fr : Rat)
    (r : ScheduleRow) : ProductFixedAccrued :=
  ProductFixedAccrued.make env r.StartDate r.EndDate a.currency
    (a.notional * fr) a.accrual_basis (some r.PaymentDate)
    a.buseinss_day_convention a.holiday_convention

/-- The per-row body of the schedule loop of `InterestRateStream.__init__`
(src lines 302-316): for each row, in order, append a fixed unit with
weight 1 when `fixed_rate` is set, then a floating unit with weight 1
when `float_index` is set; an index-lookup failure inside the floating
unit's constructor propagates. -/
def buildRows (env : Env) (a : StreamArgs) :
    List ScheduleRow → Except ProductError (List (CashflowProduct × Rat))
  | [] => .ok []
  | r :: rs =>
    let fixedPart : List (CashflowProduct × Rat) :=
      match a.fixed_rate with
      | some fr => [(CashflowProduct.fixedAccrued (a.fixedUnit env fr r), 1)]
      | none => []
    match a.float_index with
    | some fi =>
      match ProductOvernightIndexCashflow.make env r.StartDate
          (TermOrTerminationDate.date r.EndDate) fi a.ois_compounding
          a.ois_spread a.notional (some r.PaymentDate) with
      | .error e => .error e
      | .ok o =>
        match buildRows env a rs with
        | .error e => .error e
        | .ok rest =>
          .ok (fixedPart ++ [(CashflowProduct.overnight o, 1)] ++ rest)
    | none =>
      match buildRows env a rs with
      | .error e => .error e
      | .ok rest => .ok (fixedPart ++ rest)

/-- `InterestRateStream` (src lines 261-328): a `ProductPortfolio` built
from one schedule traversal. -/
structure InterestRateStream extends ProductPortfolio
deriving DecidableEq, Repr

/-- `InterestRateStream.__init__` (src lines 263-322): fail with the
spec's configuration error when both `float_index` and `fixed_rate` are
unset (the source raises a bare `Exception` there; spec §7 names this
condition ConfigurationError); otherwise generate the schedule and turn
its rows into the portfolio content in order. -/
def InterestRateStream.make (env : Env) (a : StreamArgs) :
    Except ProductError InterestRateStream :=
  if a.float_index = none ∧ a.fixed_rate = none then
    .error .ConfigurationError
  else
    match buildRows env a (env.make_schedule a.scheduleArgs) with
    | .error e => .error e
    | .ok pw =>
      .ok { products := pw.map Prod.fst, weights := pw.map Prod.snd }

/-- `InterestRateStream.num_cashflows` (src lines 327-328). -/
def InterestRateStream.num_cashflows (s : InterestRateStream) : Nat :=
  s.toProductPortfolio.num_elements

/-- `InterestRateStream.cashflow(i)` (src lines 324-325). -/
def InterestRateStream.cashflow (s : InterestRateStream) (i : Nat) :
    Except ProductError (CashflowProduct × Rat) :=
  s.toProductPortfolio.element i

/-- The parameter record of `ProductRFRSwap.__init__` (src lines 337-355),
one field per Python parameter; `floating_leg_accrual_period` is optional
as in the source, the remaining optional parameters carry their Python
default values at call sites. -/
structure RFRSwapArgs where
  effective_date : Date
  term_or_termination_date : TermOrTerminationDate
  payment_off_set : Period
  on_index : String
  fixed_rate : Rat
  pay_or_rec : PayOrReceive
  notional : Rat
  accrual_period : Period
  accrual_basis : AccrualBasis
  floating_leg_accrual_period : Option Period
  pay_business_day_convention : BusinessDayConvention
  pay_holiday_convention : HolidayConvention
  spread : Rat
  compounding_method : CompoundingMethod
deriving DecidableEq, Repr

/-- `fixed_leg_sign` (src line 394): `+1` when paying fixed, `-1` when
receiving. -/
def RFRSwapArgs.fixedLegSign (a : RFRSwapArgs) : Rat :=
  if a.pay_or_rec = PayOrReceive.PAY then 1 else -1

/-- The swap's termination-date resolution (src lines 366-377): an
explicit date is used unchanged; a tenor is resolved by advancing the
effective date under the index's fixing calendar and business-day
convention. -/
def RFRSwapArgs.resolvedTermination (env : Env) (a : RFRSwapArgs)
    (idx : OvernightIndex) : Date :=
  match a.term_or_termination_date with
  | .date d => d
  | .term p =>
    env.advance idx.fixingCalendar a.effective_date p idx.businessDayConvention

/-- The `InterestRateStream` argument list of the floating leg (src lines
398-401): notional `notional * -fixed_leg_sign`, the floating index set,
no fixed rate, the floating-leg accrual period (defaulting to the swap's
accrual period), and the pay-side conventions on both the accrual and the
payment side; parameters the call leaves out take their Python defaults. -/
def RFRSwapArgs.floatingLegStreamArgs (a : RFRSwapArgs) (termination : Date)
    (currency : Currency) : StreamArgs :=
  { effective_date := a.effective_date
    termination_date := termination
    accrual_period := a.floating_leg_accrual_period.getD a.accrual_period
    notional := a.notional * -a.fixedLegSign
    currency := currency
    accrual_basis := a.accrual_basis
    buseinss_day_convention := a.pay_business_day_convention
    holiday_convention := a.pay_holiday_convention
    float_index := some a.on_index
    fixed_rate := none
    is_on_index := true
    ois_compounding := a.compounding_method
    ois_spread := a.spread
    fixing_in_arrear := true
    payment_offset := a.payment_off_set
    payment_business_day_convention := a.pay_business_day_convention
    payment_holiday_convention := a.pay_holiday_convention
    rule := "BACKWARD"
    end_of_month := false }

/-- The `InterestRateStream` argument list of the fixed leg (src lines
405-408): notional `notional * fixed_leg_sign`, the fixed rate set, no
floating index, and the pay-side conventions; the OIS compounding and
spread are not passed, so they take their Python defaults
(`COMPOUND`, `0.0`). -/
def RFRSwapArgs.fixedLegStreamArgs (a : RFRSwapArgs) (termination : Date)
    (currency : Currency) : StreamArgs :=
  { effective_date := a.effective_date
    termination_date := termination
    accrual_period := a.accrual_period
    notional := a.notional * a.fixedLegSign
    currency := currency
    accrual_basis := a.accrual_basis
    buseinss_day_convention := a.pay_business_day_convention
    holiday_convention := a.pay_holiday_convention
    float_index := none
    fixed_rate := some a.fixed_rate
    is_on_index := false
    ois_compounding := CompoundingMethod.COMPOUND
    ois_spread := 0
    fixing_in_arrear := true
    payment_offset := a.payment_off_set
    payment_business_day_convention := a.pay_business_day_convention
    payment_holiday_convention := a.pay_holiday_convention
    rule := "BACKWARD"
    end_of_month := false }

/-- `ProductRFRSwap` (src lines 332-474): a two-legged swap owning a
fixed and a floating `InterestRateStream` leg; note `long_or_short_` is
derived with a strict comparison (src line 384). -/
structure ProductRFRSwap where
  on_index_str_ : String
  on_index_ : OvernightIndex
  pay_business_day_convention_ : BusinessDayConvention
  pay_holiday_convention_ : HolidayConvention
  first_date_ : Date
  effective_date_ : Date
  term_or_termination_date_ : TermOrTerminationDate
  termination_date_ : Date
  last_date_ : Date
  currency_ : Currency
  fixed_rate_ : Rat
  notional_ : Rat
  spread_ : Rat
  pay_or_rec_ : PayOrReceive
  long_or_short_ : LongOrShort
  pay_offset_ : Period
  accrual_basis_ : AccrualBasis
  accrual_period_ : Period
  floating_leg_accrual_period_ : Period
  compounding_method_ : CompoundingMethod
  floating_leg_ : InterestRateStream
  fixed_leg_ : InterestRateStream
deriving DecidableEq, Repr

/-- `ProductRFRSwap.__init__` (src lines 337-408): resolve the index
(lookup failure propagates), resolve the termination date (tenor advanced
under the index's fixing calendar and business-day convention, or the
explicit date unchanged), derive the currency from the index and the leg
sign from `pay_or_rec`, then build the floating and fixed legs. -/
def ProductRFRSwap.make (env : Env) (a : RFRSwapArgs) :
    Except ProductError ProductRFRSwap :=
  match env.index_registry a.on_index with
  | none => .error .LookupError
  | some idx =>
    let termination : Date := a.resolvedTermination env idx
    let currency := Currency.mk idx.currencyCode
    match InterestRateStream.make env (a.floatingLegStreamArgs termination currency) with
    | .error e => .error e
    | .ok floating_leg =>
      match InterestRateStream.make env (a.fixedLegStreamArgs termination currency) with
      | .error e => .error e
      | .ok fixed_leg =>
        .ok
          { on_index_str_ := a.on_index
            on_index_ := idx
            pay_business_day_convention_ := a.pay_business_day_convention
            pay_holiday_convention_ := a.pay_holiday_convention
            first_date_ := a.effective_date
            effective_date_ := a.effective_date
            term_or_termination_date_ := a.term_or_termination_date
            termination_date_ := termination
            last_date_ := termination
            currency_ := currency
            fixed_rate_ := a.fixed_rate
            notional_ := a.notional
            spread_ := a.spread
            pay_or_rec_ := a.pay_or_rec
            long_or_short_ :=
              if a.notional > 0 then LongOrShort.LONG else LongOrShort.SHORT
            pay_offset_ := a.payment_off_set
            accrual_basis_ := a.accrual_basis
            accrual_period_ := a.accrual_period
            floating_leg_accrual_period_ :=
              a.floating_leg_accrual_period.getD a.accrual_period
            compounding_method_ := a.compounding_method
            floating_leg_ := floating_leg
            fixed_leg_ := fixed_leg }

/-- Decidable equality of `Except` results, used to evaluate constructor
outcomes on concrete inputs. -/
instance {ε α : Type} [DecidableEq ε] [DecidableEq α] : DecidableEq (Except ε α) :=
  fun a b =>
    match a, b with
    | .error e1, .error e2 =>
      if h : e1 = e2 then .isTrue (congrArg Except.error h)
      else .isFalse (fun hh => h (Except.error.inj hh))
    | .ok a1, .ok a2 =>
      if h : a1 = a2 then .isTrue (congrArg Except.ok h)
      else .isFalse (fun hh => h (Except.ok.inj hh))
    | .error _, .ok _ => .isFalse (fun hh => Except.noConfusion hh)
    | .ok _, .error _ => .isFalse (fun hh => Except.noConfusion hh)

/-- The termination date stored by a successfully constructed overnight
cashflow, `none` on a construction failure. -/
def oicTerminationDate :
    Except ProductError ProductOvernightIndexCashflow → Option Date
  | .ok x => some x.termination_date_
  | .error _ => none

/-- The `long_or_short` flag of a successfully constructed overnight
cashflow, `none` on a construction failure. -/
def oicLongOrShort :
    Except ProductError ProductOvernightIndexCashflow → Option LongOrShort
  | .ok x => some x.long_or_short_
  | .error _ => none

/-- The serialization of a successfully reconstructed overnight cashflow,
`none` on a deserialization failure. -/
def oicSerialization :
    Except ProductError ProductOvernightIndexCashflow → Option OICSerializedDict
  | .ok x => some x.serialize
  | .error _ => none

/-- The termination date stored by a successfully constructed swap,
`none` on a construction failure. -/
def swapTerminationDate : Except ProductError ProductRFRSwap → Option Date
  | .ok s => some s.termination_date_
  | .error _ => none

/-- The `long_or_short` flag of a successfully constructed swap, `none`
on a construction failure. -/
def swapLongOrShort : Except ProductError ProductRFRSwap → Option LongOrShort
  | .ok s => some s.long_or_short_
  | .error _ => none

/-- The floating leg of a successfully constructed swap. -/
def swapFloatingLeg : Except ProductError ProductRFRSwap → Option InterestRateStream
  | .ok s => some s.floating_leg_
  | .error _ => none

/-- The fixed leg of a successfully constructed swap. -/
def swapFixedLeg : Except ProductError ProductRFRSwap → Option InterestRateStream
  | .ok s => some s.fixed_leg_
  | .error _ => none

/-- The floating-leg unit built for one schedule row (src line 313), as
it comes out of the overnight-cashflow constructor once the index
resolves to `idx`: effective `StartDate`, termination `EndDate` (an
explicit date, so used unchanged), the row's payment date, and the
stream's notional, compounding and spread. -/
def StreamArgs.floatUnit (_env : Env) (a : StreamArgs) (idx : OvernightIndex)
    (fi : String) (r : ScheduleRow) : ProductOvernightIndexCashflow :=
  { on_index_str_ := fi
    on_index_ := idx
    first_date_ := r.StartDate
    effective_date_ := r.StartDate
    termination_date_ := r.EndDate
    last_date_ := r.EndDate
    paymentDate_ := r.PaymentDate
    notional_ := a.notional
    long_or_short_ := if a.notional ≥ 0 then LongOrShort.LONG else LongOrShort.SHORT
    compounding_method_ := a.ois_compounding
    spread_ := a.ois_spread
    currency_ := Currency.mk idx.currencyCode }

/-- The stream a fixed-rate-only construction must produce: one fixed
unit per schedule row, in row order, all weights 1. -/
def StreamArgs.fixedOnlyStream (env : Env) (a : StreamArgs) (fr : Rat) :
    InterestRateStream :=
  { products := (env.make_schedule a.scheduleArgs).map
      (fun r => CashflowProduct.fixedAccrued (a.fixedUnit env fr r))
    weights := List.replicate (env.make_schedule a.scheduleArgs).length 1 }

/-- The stream a floating-index-only construction must produce: one
overnight unit per schedule row, in row order, all weights 1. -/
def StreamArgs.floatOnlyStream (env : Env) (a : StreamArgs)
    (idx : OvernightIndex) (fi : String) : InterestRateStream :=
  { products := (env.make_schedule a.scheduleArgs).map
      (fun r => CashflowProduct.overnight (a.floatUnit env idx fi r))
    weights := List.replicate (env.make_schedule a.scheduleArgs).length 1 }

/-- The stream a construction with both legs must produce: per schedule
row, in row order, the fixed unit followed by the overnight unit, all
weights 1. -/
def StreamArgs.bothLegsStream (env : Env) (a : StreamArgs) (fr : Rat)
    (idx : OvernightIndex) (fi : String) : InterestRateStream :=
  { products := (env.make_schedule a.scheduleArgs).flatMap
      (fun r => [CashflowProduct.fixedAccrued (a.fixedUnit env fr r),
                 CashflowProduct.overnight (a.floatUnit env idx fi r)])
    weights := List.replicate (2 * (env.make_schedule a.scheduleArgs).length) 1 }

/-- When the index name resolves, the overnight-cashflow constructor
applied to a schedule row succeeds and yields the row's floating unit. -/
lemma oic_make_ok (env : Env) {fi : String} {idx : OvernightIndex}
    (h : env.index_registry fi = some idx) (a : StreamArgs) (r : ScheduleRow) :
    ProductOvernightIndexCashflow.make env r.StartDate
      (TermOrTerminationDate.date r.EndDate) fi a.ois_compounding
      a.ois_spread a.notional (some r.PaymentDate) =
      .ok (a.floatUnit env idx fi r) := by
  simp [ProductOvernightIndexCashflow.make, h, StreamArgs.floatUnit, Option.getD]

/-- The only failure the overnight-cashflow constructor can produce is an
index-lookup failure. -/
lemma oic_make_error {env : Env} {eff : Date} {tod : TermOrTerminationDate}
    {fi : String} {cm : CompoundingMethod} {sp n : Rat} {pd : Option Date}
    {e : ProductError}
    (h : ProductOvernightIndexCashflow.make env eff tod fi cm sp n pd = .error e) :
    e = ProductError.LookupError := by
  unfold ProductOvernightIndexCashflow.make at h
  cases hreg : env.index_registry fi <;> rw [hreg] at h <;> simp at h
  exact h.symm

/-- With only the fixed rate set, the schedule loop produces exactly one
fixed unit of weight 1 per row, in row order. -/
lemma buildRows_fixed_only (env : Env) (a : StreamArgs) {fr : Rat}
    (hfr : a.fixed_rate = some fr) (hfl : a.float_index = none) :
    ∀ rows : List ScheduleRow,
      buildRows env a rows =
        .ok (rows.map fun r =>
          (CashflowProduct.fixedAccrued (a.fixedUnit env fr r), (1 : Rat))) := by
  intro rows
  induction rows with
  | nil => simp [buildRows]
  | cons r rs ih => simp [buildRows, hfr, hfl, ih]

/-- With only the floating index set and the index resolving, the
schedule loop produces exactly one overnight unit of weight 1 per row,
in row order. -/
lemma buildRows_float_only (env : Env) (a : StreamArgs) {fi : String}
    {idx : OvernightIndex} (hfr : a.fixed_rate = none)
    (hfl : a.float_index = some fi) (hidx : env.index_registry fi = some idx) :
    ∀ rows : List ScheduleRow,
      buildRows env a rows =
        .ok (rows.map fun r =>
          (CashflowProduct.overnight (a.floatUnit env idx fi r), (1 : Rat))) := by
  intro rows
  induction rows with
  | nil => simp [buildRows]
  | cons r rs ih => simp [buildRows, hfr, hfl, ih, oic_make_ok env hidx a r]

/-- With both inputs set and the index resolving, the schedule loop
produces, per row and in row order, the fixed unit then the overnight
unit, each of weight 1. -/
lemma buildRows_both (env : Env) (a : StreamArgs) {fr : Rat} {fi : String}
    {idx : OvernightIndex} (hfr : a.fixed_rate = some fr)
    (hfl : a.float_index = some fi) (hidx : env.index_registry fi = some idx) :
    ∀ rows : List ScheduleRow,
      buildRows env a rows =
        .ok (rows.flatMap fun r =>
          [(CashflowProduct.fixedAccrued (a.fixedUnit env fr r), (1 : Rat)),
           (CashflowProduct.overnight (a.floatUnit env idx fi r), (1 : Rat))]) := by
  intro rows
  induction rows with
  | nil => simp [buildRows]
  | cons r rs ih => simp [buildRows, hfr, hfl, ih, oic_make_ok env hidx a r]

/-- The schedule loop can only fail with an index-lookup failure. -/
lemma buildRows_error_lookup (env : Env) (a : StreamArgs) :
    ∀ (rows : List ScheduleRow) (e : ProductError),
      buildRows env a rows = .error e → e = ProductError.LookupError := by
  intro rows
  induction rows with
  | nil => intro e h; simp [buildRows] at h
  | cons r rs ih =>
    intro e h
    unfold buildRows at h
    cases hfl : a.float_index with
    | none =>
      rw [hfl] at h
      simp only [] at h
      cases hb : buildRows env a rs with
      | error e2 => rw [hb] at h; simp at h; exact h.symm.trans (ih e2 hb)
      | ok rest => rw [hb] at h; simp at h
    | some fi =>
      rw [hfl] at h
      simp only [] at h
      cases hoic : ProductOvernightIndexCashflow.make env r.StartDate
          (TermOrTerminationDate.date r.EndDate) fi a.ois_compounding
          a.ois_spread a.notional (some r.PaymentDate) with
      | error e2 =>
        rw [hoic] at h; simp at h; exact h.symm.trans (oic_make_error hoic)
      | ok o =>
        rw [hoic] at h
        cases hb : buildRows env a rs with
        | error e2 => rw [hb] at h; simp at h; exact h.symm.trans (ih e2 hb)
        | ok rest => rw [hb] at h; simp at h

/-- A successful stream construction is exactly the unzipping of the
schedule loop's (product, weight) pairs. -/
lemma make_ok_shape {env : Env} {a : StreamArgs} {s : InterestRateStream}
    (h : InterestRateStream.make env a = .ok s) :
    ∃ pw, buildRows env a (env.make_schedule a.scheduleArgs) = .ok pw ∧
      s.products = pw.map Prod.fst ∧ s.weights = pw.map Prod.snd := by
  unfold InterestRateStream.make at h
  by_cases hc : a.float_index = none ∧ a.fixed_rate = none
  · rw [if_pos hc] at h; exact absurd h (by simp)
  · rw [if_neg hc] at h
    cases hb : buildRows env a (env.make_schedule a.scheduleArgs) with
    | error e => rw [hb] at h; simp at h
    | ok pw =>
      rw [hb] at h
      simp only [Except.ok.injEq] at h
      exact ⟨pw, rfl, by rw [← h], by rw [← h]⟩

/-- With the fixed rate set and the floating index unset, the stream
construction succeeds and produces the fixed-only stream. -/
lemma make_fixed_only_eq (env : Env) (a : StreamArgs) {fr : Rat}
    (hfr : a.fixed_rate = some fr) (hfl : a.float_index = none) :
    InterestRateStream.make env a = .ok (a.fixedOnlyStream env fr) := by
  unfold InterestRateStream.make
  rw [if_neg (by simp [hfr])]
  rw [buildRows_fixed_only env a hfr hfl]
  simp [StreamArgs.fixedOnlyStream, List.map_map, Function.comp]
  exact List.map_const (env.make_schedule a.scheduleArgs) 1

/-- With the floating index set, resolving, and the fixed rate unset, the
stream construction succeeds and produces the float-only stream. -/
lemma make_float_only_eq (env : Env) (a : StreamArgs) {fi : String}
    {idx : OvernightIndex} (hfr : a.fixed_rate = none)
    (hfl : a.float_index = some fi) (hidx : env.index_registry fi = some idx) :
    InterestRateStream.make env a = .ok (a.floatOnlyStream env idx fi) := by
  unfold InterestRateStream.make
  rw [if_neg (by simp [hfl])]
  rw [buildRows_float_only env a hfr hfl hidx]
  simp [StreamArgs.floatOnlyStream, List.map_map, Function.comp]
  exact List.map_const (env.make_schedule a.scheduleArgs) 1

/-- A list made of two-element blocks, flattened, where each block holds
the same element twice. -/
lemma flatMap_const_pair {α β : Type} (b : β) :
    ∀ l : List α, (l.flatMap fun _ => [b, b]) = List.replicate (2 * l.length) b := by
  intro l
  induction l with
  | nil => simp
  | cons x xs ih =>
    simp only [List.flatMap_cons, ih, List.length_cons, Nat.mul_succ]
    rw [show 2 * xs.length + 2 = (2 * xs.length + 1) + 1 from rfl]
    simp [List.replicate_succ]

/-- Every fixed unit among the schedule loop's output pairs carries
weight 1 and is the fixed unit of some schedule row (in particular the
fixed rate must have been set). -/
lemma buildRows_fixedAccrued_mem (env : Env) (a : StreamArgs) :
    ∀ (rows : List ScheduleRow) (pw : List (CashflowProduct × Rat)),
      buildRows env a rows = .ok pw →
      ∀ (f : ProductFixedAccrued) (w : Rat),
        (CashflowProduct.fixedAccrued f, w) ∈ pw →
        ∃ fr r, a.fixed_rate = some fr ∧ r ∈ rows ∧ w = 1 ∧
          f = a.fixedUnit env fr r := by
  intro rows
  induction rows with
  | nil =>
    intro pw h f w hmem
    simp only [buildRows, Except.ok.injEq] at h
    subst h
    simp at hmem
  | cons r rs ih =>
    intro pw h f w hmem
    unfold buildRows at h
    cases hfl : a.float_index with
    | none =>
      rw [hfl] at h
      cases hb : buildRows env a rs with
      | error e => rw [hb] at h; simp at h
      | ok rest =>
        rw [hb] at h
        simp only [Except.ok.injEq] at h
        subst h
        cases hfr : a.fixed_rate with
        | none =>
          rw [hfr] at hmem
          simp only [List.nil_append] at hmem
          obtain ⟨fr2, r2, hf2, hr2, hw2, he2⟩ := ih rest hb f w hmem
          rw [hfr] at hf2
          exact ⟨fr2, r2, hf2, List.mem_cons_of_mem r hr2, hw2, he2⟩
        | some fr =>
          rw [hfr] at hmem
          simp only [List.singleton_append, List.mem_cons] at hmem
          rcases hmem with heq | hmem2
          · obtain ⟨h1, h2⟩ := Prod.mk.injEq .. |>.mp heq
            refine ⟨fr, r, rfl, List.mem_cons_self r rs, h2, ?_⟩
            exact CashflowProduct.fixedAccrued.inj h1
          · obtain ⟨fr2, r2, hf2, hr2, hw2, he2⟩ := ih rest hb f w hmem2
            rw [hfr] at hf2
            exact ⟨fr2, r2, hf2, List.mem_cons_of_mem r hr2, hw2, he2⟩
    | some fi =>
      rw [hfl] at h
      simp only [] at h
      cases hoic : ProductOvernightIndexCashflow.make env r.StartDate
          (TermOrTerminationDate.date r.EndDate) fi a.ois_compounding
          a.ois_spread a.notional (some r.PaymentDate) with
      | error e => rw [hoic] at h; simp at h
      | ok o =>
        rw [hoic] at h
        cases hb : buildRows env a rs with
        | error e => rw [hb] at h; simp at h
        | ok rest =>
          rw [hb] at h
          simp only [Except.ok.injEq] at h
          subst h
          cases hfr : a.fixed_rate with
          | none =>
            rw [hfr] at hmem
            simp only [List.nil_append, List.cons_append, List.mem_cons] at hmem
            rcases hmem with heq | hmem2
            · exact absurd (Prod.mk.injEq .. |>.mp heq).1
                (by intro hh; exact CashflowProduct.noConfusion hh)
            · obtain ⟨fr2, r2, hf2, hr2, hw2, he2⟩ := ih rest hb f w hmem2
              rw [hfr] at hf2
              exact ⟨fr2, r2, hf2, List.mem_cons_of_mem r hr2, hw2, he2⟩
          | some fr =>
            rw [hfr] at hmem
            simp only [] at hmem
            rcases List.mem_append.mp hmem with hAB | hC
            · rcases List.mem_append.mp hAB with hA | hB
              · rw [List.mem_singleton] at hA
                obtain ⟨h1, h2⟩ := Prod.mk.injEq .. |>.mp hA
                refine ⟨fr, r, rfl, List.mem_cons_self r rs, h2, ?_⟩
                exact CashflowProduct.fixedAccrued.inj h1
              · rw [List.mem_singleton] at hB
                exact absurd (Prod.mk.injEq .. |>.mp hB).1 (by simp)
            · obtain ⟨fr2, r2, hf2, hr2, hw2, he2⟩ := ih rest hb f w hC
              rw [hfr] at hf2
              exact ⟨fr2, r2, hf2, List.mem_cons_of_mem r hr2, hw2, he2⟩

/-- With both inputs set and the index resolving, the stream construction
succeeds and produces the paired stream. -/
lemma make_both_eq (env : Env) (a : StreamArgs) {fr : Rat} {fi : String}
    {idx : OvernightIndex} (hfr : a.fixed_rate = some fr)
    (hfl : a.float_index = some fi) (hidx : env.index_registry fi = some idx) :
    InterestRateStream.make env a = .ok (a.bothLegsStream env fr idx fi) := by
  unfold InterestRateStream.make
  rw [if_neg (by simp [hfl])]
  rw [buildRows_both env a hfr hfl hidx]
  simp only [Except.ok.injEq, StreamArgs.bothLegsStream,
    InterestRateStream.mk.injEq, ProductPortfolio.mk.injEq]
  constructor
  · simp [List.map_flatMap]
  · rw [← flatMap_const_pair (1 : Rat) (env.make_schedule a.scheduleArgs)]
    simp [List.map_flatMap]

/-- Flattening two-element blocks doubles the length. -/
lemma flatMap_pair_length {α β : Type} (f g : α → β) :
    ∀ l : List α, (l.flatMap fun x => [f x, g x]).length = 2 * l.length := by
  intro l
  induction l with
  | nil => simp
  | cons x xs ih => simp [List.flatMap_cons, ih, Nat.mul_succ]

/-- In a flattening of two-element blocks, block `i` occupies positions
`2*i` and `2*i+1`, in block order. -/
lemma flatMap_pair_getElem {α β : Type} (f g : α → β) :
    ∀ (l : List α) (i : Nat) (x : α), l[i]? = some x →
      (l.flatMap fun y => [f y, g y])[2 * i]? = some (f x) ∧
      (l.flatMap fun y => [f y, g y])[2 * i + 1]? = some (g x) := by
  intro l
  induction l with
  | nil => intro i x h; simp at h
  | cons y ys ih =>
    intro i x h
    cases i with
    | zero =>
      simp only [List.getElem?_cons_zero, Option.some.injEq] at h
      subst h
      simp [List.flatMap_cons]
    | succ j =>
      simp only [List.getElem?_cons_succ] at h
      have hij := ih j x h
      rw [List.flatMap_cons]
      constructor
      · rw [show 2 * (j + 1) = 2 * j + 1 + 1 from by omega]
        simpa using hij.1
      · rw [show 2 * (j + 1) + 1 = 2 * j + 1 + 1 + 1 from by omega]
        simpa using hij.2

/-- Serialization stores the upper-cased compounding-method string, and
parsing it back recovers the method. -/
lemma from_string_upper_to_string (cm : CompoundingMethod) :
    CompoundingMethod.from_string (str_upper cm.to_string) = some cm := by
  cases cm <;> decide

/-- The SOFR-like overnight index used by the concrete scenarios. -/
def sofrIndex : OvernightIndex :=
  { currencyCode := "USD", fixingCalendar := "SIFMA", businessDayConvention := "F" }

/-- First schedule row of the concrete scenario (spec §8): the quarter
from 2024-01-01 to 2024-04-01, paid at its end. -/
def rowQ1 : ScheduleRow :=
  { StartDate := Date.mk "2024-01-01"
    EndDate := Date.mk "2024-04-01"
    PaymentDate := Date.mk "2024-04-01" }

/-- Second schedule row of the concrete scenario: the quarter from
2024-04-01 to 2024-07-01, paid at its end. -/
def rowQ2 : ScheduleRow :=
  { StartDate := Date.mk "2024-04-01"
    EndDate := Date.mk "2024-07-01"
    PaymentDate := Date.mk "2024-07-01" }

/-- A concrete environment: resolves only "SOFR", advances dates by
tagging them with the tenor and calendar, generates the two-quarter
schedule, and reports a flat quarter accrual. -/
def envA : Env :=
  { index_registry := fun n => if n = "SOFR" then some sofrIndex else none
    advance := fun cal d p bdc => Date.mk (d.iso ++ "+" ++ p.tag ++ "@" ++ cal ++ bdc)
    make_schedule := fun _ => [rowQ1, rowQ2]
    accrued := fun _ _ _ _ _ => 1 / 4 }

/-- Concrete stream arguments: fixed rate 5%, no floating index,
notional 1,000,000 (spec §8's concrete scenario). -/
def argsFixedOnly : StreamArgs :=
  { effective_date := Date.mk "2024-01-01"
    termination_date := Date.mk "2024-07-01"
    accrual_period := Period.mk "3M"
    notional := 1000000
    currency := Currency.mk "USD"
    accrual_basis := AccrualBasis.mk "ACT360"
    buseinss_day_convention := BusinessDayConvention.mk "F"
    holiday_convention := HolidayConvention.mk "USGS"
    float_index := none
    fixed_rate := some (1 / 20)
    is_on_index := false
    ois_compounding := CompoundingMethod.COMPOUND
    ois_spread := 0
    fixing_in_arrear := true
    payment_offset := Period.mk "0D"
    payment_business_day_convention := BusinessDayConvention.mk "F"
    payment_holiday_convention := HolidayConvention.mk "USGS"
    rule := "BACKWARD"
    end_of_month := false }

/-- Concrete stream arguments with both the fixed rate and the floating
index set. -/
def argsBoth : StreamArgs := { argsFixedOnly with float_index := some "SOFR" }

/-- Concrete stream arguments with neither the fixed rate nor the
floating index set. -/
def argsNeither : StreamArgs := { argsFixedOnly with fixed_rate := none }

/-- Concrete swap arguments: pay fixed 5% versus SOFR on 1,000,000. -/
def swapArgsPay : RFRSwapArgs :=
  { effective_date := Date.mk "2024-01-01"
    term_or_termination_date := TermOrTerminationDate.date (Date.mk "2025-01-01")
    payment_off_set := Period.mk "0D"
    on_index := "SOFR"
    fixed_rate := 1 / 20
    pay_or_rec := PayOrReceive.PAY
    notional := 1000000
    accrual_period := Period.mk "3M"
    accrual_basis := AccrualBasis.mk "ACT360"
    floating_leg_accrual_period := none
    pay_business_day_convention := BusinessDayConvention.mk "F"
    pay_holiday_convention := HolidayConvention.mk "USGS"
    spread := 0
    compounding_method := CompoundingMethod.COMPOUND }

/-- The same swap with zero notional. -/
def swapArgsZero : RFRSwapArgs := { swapArgsPay with notional := 0 }

/-- The same swap with a tenor instead of an explicit termination date. -/
def swapArgsTerm : RFRSwapArgs :=
  { swapArgsPay with term_or_termination_date := TermOrTerminationDate.term (Period.mk "1Y") }

/-- A concrete overnight cashflow, as its constructor builds it. -/
def oicSample : ProductOvernightIndexCashflow :=
  { on_index_str_ := "SOFR"
    on_index_ := sofrIndex
    first_date_ := Date.mk "2024-01-01"
    effective_date_ := Date.mk "2024-01-01"
    termination_date_ := Date.mk "2025-01-01"
    last_date_ := Date.mk "2025-01-01"
    paymentDate_ := Date.mk "2025-01-01"
    notional_ := 100
    long_or_short_ := LongOrShort.LONG
    compounding_method_ := CompoundingMethod.COMPOUND
    spread_ := 0
    currency_ := Currency.mk "USD" }

/-- C1: for every schedule with N rows, constructing an
`InterestRateStream` with `fixed_rate` set and `float_index` unset yields
a portfolio with exactly N elements, each a `ProductFixedAccrued` with
weight 1, in the same order as the schedule rows. -/
theorem stream_fixed_only_elements (env : Env) (a : StreamArgs) (fr : Rat)
    (hfr : a.fixed_rate = some fr) (hfl : a.float_index = none) :
    InterestRateStream.make env a = .ok (a.fixedOnlyStream env fr) ∧
    (a.fixedOnlyStream env fr).num_cashflows =
      (env.make_schedule a.scheduleArgs).length ∧
    (a.fixedOnlyStream env fr).weights =
      List.replicate (env.make_schedule a.scheduleArgs).length 1 ∧
    ∀ (i : Nat) (r : ScheduleRow),
      (env.make_schedule a.scheduleArgs)[i]? = some r →
      (a.fixedOnlyStream env fr).products[i]? =
        some (CashflowProduct.fixedAccrued (a.fixedUnit env fr r)) := by
  refine ⟨make_fixed_only_eq env a hfr hfl, ?_, rfl, ?_⟩
  · simp [StreamArgs.fixedOnlyStream, InterestRateStream.num_cashflows,
      ProductPortfolio.num_elements]
  · intro i r hi
    simp [StreamArgs.fixedOnlyStream, List.getElem?_map, hi]

/-- Witness for C1: the concrete two-quarter scenario with fixed rate
5% only produces a two-element stream of fixed units. -/
theorem stream_fixed_only_elements_witness :
    argsFixedOnly.fixed_rate = some (1 / 20) ∧
    argsFixedOnly.float_index = none ∧
    InterestRateStream.make envA argsFixedOnly =
      .ok (argsFixedOnly.fixedOnlyStream envA (1 / 20)) ∧
    (argsFixedOnly.fixedOnlyStream envA (1 / 20)).num_cashflows = 2 :=
  ⟨rfl, rfl,
   (stream_fixed_only_elements envA argsFixedOnly (1 / 20) rfl rfl).1,
   by decide⟩

/-- C2: for every schedule with N rows, constructing an
`InterestRateStream` with both `fixed_rate` and `float_index` set yields
a portfolio with exactly 2N elements, with one fixed-accrued unit and one
overnight-index unit produced per schedule row, each with weight 1. -/
theorem stream_both_legs_elements (env : Env) (a : StreamArgs) (fr : Rat)
    (fi : String) (idx : OvernightIndex) (hfr : a.fixed_rate = some fr)
    (hfl : a.float_index = some fi) (hidx : env.index_registry fi = some idx) :
    InterestRateStream.make env a = .ok (a.bothLegsStream env fr idx fi) ∧
    (a.bothLegsStream env fr idx fi).num_cashflows =
      2 * (env.make_schedule a.scheduleArgs).length ∧
    (a.bothLegsStream env fr idx fi).weights =
      List.replicate (2 * (env.make_schedule a.scheduleArgs).length) 1 ∧
    ∀ r ∈ env.make_schedule a.scheduleArgs,
      CashflowProduct.fixedAccrued (a.fixedUnit env fr r) ∈
        (a.bothLegsStream env fr idx fi).products ∧
      CashflowProduct.overnight (a.floatUnit env idx fi r) ∈
        (a.bothLegsStream env fr idx fi).products := by
  refine ⟨make_both_eq env a hfr hfl hidx, ?_, rfl, ?_⟩
  · simp only [InterestRateStream.num_cashflows, ProductPortfolio.num_elements,
      StreamArgs.bothLegsStream]
    exact flatMap_pair_length _ _ _
  · intro r hr
    constructor
    · exact List.mem_flatMap.mpr ⟨r, hr, by simp⟩
    · exact List.mem_flatMap.mpr ⟨r, hr, by simp⟩

/-- Witness for C2: the concrete two-quarter scenario with both 5% fixed
rate and the SOFR index produces a four-element stream. -/
theorem stream_both_legs_elements_witness :
    argsBoth.fixed_rate = some (1 / 20) ∧
    argsBoth.float_index = some "SOFR" ∧
    envA.index_registry "SOFR" = some sofrIndex ∧
    InterestRateStream.make envA argsBoth =
      .ok (argsBoth.bothLegsStream envA (1 / 20) sofrIndex "SOFR") ∧
    (argsBoth.bothLegsStream envA (1 / 20) sofrIndex "SOFR").num_cashflows = 4 :=
  ⟨rfl, rfl, rfl,
   (stream_both_legs_elements envA argsBoth (1 / 20) "SOFR" sofrIndex rfl rfl rfl).1,
   by decide⟩

/-- C10: in every `InterestRateStream` constructed with both `fixed_rate`
and `float_index` set, the fixed-accrued unit of schedule row k sits at
portfolio position 2k and the overnight unit of the same row at position
2k+1. -/
theorem stream_both_legs_pair_order (env : Env) (a : StreamArgs) (fr : Rat)
    (fi : String) (idx : OvernightIndex) (s : InterestRateStream)
    (hfr : a.fixed_rate = some fr) (hfl : a.float_index = some fi)
    (hidx : env.index_registry fi = some idx)
    (hmk : InterestRateStream.make env a = .ok s) :
    ∀ (i : Nat) (r : ScheduleRow),
      (env.make_schedule a.scheduleArgs)[i]? = some r →
      s.products[2 * i]? =
        some (CashflowProduct.fixedAccrued (a.fixedUnit env fr r)) ∧
      s.products[2 * i + 1]? =
        some (CashflowProduct.overnight (a.floatUnit env idx fi r)) := by
  have h2 := make_both_eq env a hfr hfl hidx
  rw [hmk] at h2
  have hs : s = a.bothLegsStream env fr idx fi := Except.ok.inj h2
  subst hs
  intro i r hi
  simpa [StreamArgs.bothLegsStream] using
    flatMap_pair_getElem
      (fun r => CashflowProduct.fixedAccrued (a.fixedUnit env fr r))
      (fun r => CashflowProduct.overnight (a.floatUnit env idx fi r))
      (env.make_schedule a.scheduleArgs) i r hi

/-- Witness for C10: in the concrete two-quarter scenario the second
row's fixed unit sits at position 2 and its overnight unit at
position 3. -/
theorem stream_both_legs_pair_order_witness :
    argsBoth.fixed_rate = some (1 / 20) ∧
    (envA.make_schedule argsBoth.scheduleArgs)[1]? = some rowQ2 ∧
    (argsBoth.bothLegsStream envA (1 / 20) sofrIndex "SOFR").products[2]? =
      some (CashflowProduct.fixedAccrued (argsBoth.fixedUnit envA (1 / 20) rowQ2)) ∧
    (argsBoth.bothLegsStream envA (1 / 20) sofrIndex "SOFR").products[3]? =
      some (CashflowProduct.overnight (argsBoth.floatUnit envA sofrIndex "SOFR" rowQ2)) := by
  refine ⟨rfl, rfl, ?_⟩
  have h := stream_both_legs_pair_order envA argsBoth (1 / 20) "SOFR" sofrIndex
    (argsBoth.bothLegsStream envA (1 / 20) sofrIndex "SOFR") rfl rfl rfl
    (make_both_eq envA argsBoth rfl rfl rfl) 1 rowQ2 rfl
  exact h

/-- C3: constructing an `InterestRateStream` with both `fixed_rate` and
`float_index` unset fails with the configuration error and constructs
nothing; when at least one of the two is supplied this error is never
raised. -/
theorem stream_configuration_error (env : Env) (a : StreamArgs) :
    (a.float_index = none ∧ a.fixed_rate = none →
      InterestRateStream.make env a = .error ProductError.ConfigurationError) ∧
    (¬(a.float_index = none ∧ a.fixed_rate = none) →
      InterestRateStream.make env a ≠ .error ProductError.ConfigurationError) := by
  constructor
  · intro h
    unfold InterestRateStream.make
    rw [if_pos h]
  · intro h
    unfold InterestRateStream.make
    rw [if_neg h]
    cases hb : buildRows env a (env.make_schedule a.scheduleArgs) with
    | error e =>
      have he := buildRows_error_lookup env a _ e hb
      subst he
      simp
    | ok pw => simp

/-- Witness for C3: the concrete arguments with neither input set fail
with the configuration error; with the fixed rate set they do not. -/
theorem stream_configuration_error_witness :
    InterestRateStream.make envA argsNeither =
      .error ProductError.ConfigurationError ∧
    InterestRateStream.make envA argsFixedOnly ≠
      .error ProductError.ConfigurationError :=
  ⟨(stream_configuration_error envA argsNeither).1 ⟨rfl, rfl⟩,
   (stream_configuration_error envA argsFixedOnly).2 (by simp [argsFixedOnly])⟩

/-- C9: for every product variant and every visitor, `accept` invokes
exactly one visitor handler — the one matching the product's concrete
variant — and returns that handler's result unmodified. -/
theorem accept_single_dispatch {α : Type} (p : CashflowProduct)
    (v : ProductVisitor α) :
    (p.accept v.traced).1 = [p.variant] ∧ (p.accept v.traced).2 = p.accept v := by
  cases p <;> exact ⟨rfl, rfl⟩

/-- C4: a `ProductRFRSwap` built with `pay_or_rec=PAY` and notional N>0
passes +N (positive) to the fixed leg and -N (negative) to the floating
leg, regardless of N's magnitude; `RECEIVE` flips both signs; and the two
legs stored on the swap are exactly the streams built from those argument
lists. -/
theorem rfr_swap_leg_notional_signs (env : Env) (a : RFRSwapArgs)
    (idx : OvernightIndex) (hidx : env.index_registry a.on_index = some idx)
    (hpos : 0 < a.notional) :
    (a.pay_or_rec = PayOrReceive.PAY →
      (a.fixedLegStreamArgs (a.resolvedTermination env idx)
        (Currency.mk idx.currencyCode)).notional = a.notional ∧
      (a.floatingLegStreamArgs (a.resolvedTermination env idx)
        (Currency.mk idx.currencyCode)).notional = -a.notional ∧
      0 < (a.fixedLegStreamArgs (a.resolvedTermination env idx)
        (Currency.mk idx.currencyCode)).notional ∧
      (a.floatingLegStreamArgs (a.resolvedTermination env idx)
        (Currency.mk idx.currencyCode)).notional < 0) ∧
    (a.pay_or_rec = PayOrReceive.RECEIVE →
      (a.fixedLegStreamArgs (a.resolvedTermination env idx)
        (Currency.mk idx.currencyCode)).notional = -a.notional ∧
      (a.floatingLegStreamArgs (a.resolvedTermination env idx)
        (Currency.mk idx.currencyCode)).notional = a.notional ∧
      (a.fixedLegStreamArgs (a.resolvedTermination env idx)
        (Currency.mk idx.currencyCode)).notional < 0 ∧
      0 < (a.floatingLegStreamArgs (a.resolvedTermination env idx)
        (Currency.mk idx.currencyCode)).notional) ∧
    swapFloatingLeg (ProductRFRSwap.make env a) =
      (InterestRateStream.make env (a.floatingLegStreamArgs
        (a.resolvedTermination env idx) (Currency.mk idx.currencyCode))).toOption ∧
    swapFixedLeg (ProductRFRSwap.make env a) =
      (InterestRateStream.make env (a.fixedLegStreamArgs
        (a.resolvedTermination env idx) (Currency.mk idx.currencyCode))).toOption := by
  refine ⟨?_, ?_, ?_, ?_⟩
  · intro h
    have hs : a.fixedLegSign = 1 := by simp [RFRSwapArgs.fixedLegSign, h]
    refine ⟨?_, ?_, ?_, ?_⟩
    · show a.notional * a.fixedLegSign = a.notional
      rw [hs, mul_one]
    · show a.notional * -a.fixedLegSign = -a.notional
      rw [hs]; ring
    · show 0 < a.notional * a.fixedLegSign
      rw [hs, mul_one]; exact hpos
    · show a.notional * -a.fixedLegSign < 0
      rw [hs]
      rw [show a.notional * -(1 : Rat) = -a.notional from by ring]
      exact neg_lt_zero.mpr hpos
  · intro h
    have hs : a.fixedLegSign = -1 := by simp [RFRSwapArgs.fixedLegSign, h]
    refine ⟨?_, ?_, ?_, ?_⟩
    · show a.notional * a.fixedLegSign = -a.notional
      rw [hs, mul_neg_one]
    · show a.notional * -a.fixedLegSign = a.notional
      rw [hs]; ring
    · show a.notional * a.fixedLegSign < 0
      rw [hs, mul_neg_one]; exact neg_lt_zero.mpr hpos
    · show 0 < a.notional * -a.fixedLegSign
      rw [hs, neg_neg, mul_one]; exact hpos
  · simp only [ProductRFRSwap.make, hidx]
    rw [make_float_only_eq env
      (a.floatingLegStreamArgs (a.resolvedTermination env idx)
        (Currency.mk idx.currencyCode)) rfl rfl hidx]
    rw [make_fixed_only_eq env
      (a.fixedLegStreamArgs (a.resolvedTermination env idx)
        (Currency.mk idx.currencyCode)) rfl rfl]
    simp [swapFloatingLeg, Except.toOption]
  · simp only [ProductRFRSwap.make, hidx]
    rw [make_float_only_eq env
      (a.floatingLegStreamArgs (a.resolvedTermination env idx)
        (Currency.mk idx.currencyCode)) rfl rfl hidx]
    rw [make_fixed_only_eq env
      (a.fixedLegStreamArgs (a.resolvedTermination env idx)
        (Currency.mk idx.currencyCode)) rfl rfl]
    simp [swapFixedLeg, Except.toOption]

/-- Witness for C4: the concrete pay-fixed swap on 1,000,000 passes
+1,000,000 to the fixed leg and the negated notional to the floating
leg. -/
theorem rfr_swap_leg_notional_signs_witness :
    envA.index_registry swapArgsPay.on_index = some sofrIndex ∧
    (0 : Rat) < swapArgsPay.notional ∧
    swapArgsPay.pay_or_rec = PayOrReceive.PAY ∧
    (swapArgsPay.fixedLegStreamArgs
      (swapArgsPay.resolvedTermination envA sofrIndex)
      (Currency.mk sofrIndex.currencyCode)).notional = swapArgsPay.notional ∧
    (swapArgsPay.floatingLegStreamArgs
      (swapArgsPay.resolvedTermination envA sofrIndex)
      (Currency.mk sofrIndex.currencyCode)).notional = -swapArgsPay.notional := by
  have h := rfr_swap_leg_notional_signs envA swapArgsPay sofrIndex rfl (by decide)
  exact ⟨rfl, by decide, rfl, (h.1 rfl).1, (h.1 rfl).2.1⟩

/-- C5: in an `InterestRateStream` with `fixed_rate` set, every
fixed-accrued unit carries `notional * fixed_rate` as its stored
notional, and additionally an accrued amount computed by the external
accrual function over its own period. -/
theorem stream_fixed_units_scaled_notional (env : Env) (a : StreamArgs)
    (fr : Rat) (s : InterestRateStream) (hfr : a.fixed_rate = some fr)
    (hmk : InterestRateStream.make env a = .ok s) :
    ∀ f : ProductFixedAccrued, CashflowProduct.fixedAccrued f ∈ s.products →
      f.notional_ = a.notional * fr ∧
      f.accrued_ = env.accrued f.effective_date_ f.termination_date_
        a.accrual_basis a.buseinss_day_convention a.holiday_convention := by
  intro f hmem
  obtain ⟨pw, hb, hp, hw⟩ := make_ok_shape hmk
  rw [hp] at hmem
  obtain ⟨pr, hpr, hfst⟩ := List.mem_map.mp hmem
  have hmem2 : (CashflowProduct.fixedAccrued f, pr.snd) ∈ pw := by
    rw [← hfst]; exact hpr
  obtain ⟨fr2, r, hfr2, hrm, hw1, hfu⟩ :=
    buildRows_fixedAccrued_mem env a _ pw hb f pr.snd hmem2
  have hfr3 : fr2 = fr := Option.some.inj (hfr2.symm.trans hfr)
  subst hfr3
  subst hfu
  exact ⟨rfl, rfl⟩

/-- Witness for C5: in the concrete fixed-only stream, the first fixed
unit stores the stream notional scaled by the 5% rate. -/
theorem stream_fixed_units_scaled_notional_witness :
    argsFixedOnly.fixed_rate = some (1 / 20) ∧
    InterestRateStream.make envA argsFixedOnly =
      .ok (argsFixedOnly.fixedOnlyStream envA (1 / 20)) ∧
    (argsFixedOnly.fixedUnit envA (1 / 20) rowQ1).notional_ =
      argsFixedOnly.notional * (1 / 20) := by
  refine ⟨rfl, make_fixed_only_eq envA argsFixedOnly rfl rfl, ?_⟩
  exact (stream_fixed_units_scaled_notional envA argsFixedOnly (1 / 20)
    (argsFixedOnly.fixedOnlyStream envA (1 / 20)) rfl
    (make_fixed_only_eq envA argsFixedOnly rfl rfl)
    (argsFixedOnly.fixedUnit envA (1 / 20) rowQ1) (List.Mem.head _)).1

/-- Rebuilding a date from its ISO rendering gives the date back. -/
lemma Date_mk_iso (d : Date) : Date.mk d.iso = d := rfl

/-- C6: for every valid overnight-index cashflow, deserializing its
serialization reconstructs a value whose serialization equals the
original one (here the reconstruction is even exact). -/
theorem oic_serialize_roundtrip (env : Env) (eff : Date)
    (tod : TermOrTerminationDate) (name : String) (cm : CompoundingMethod)
    (sp n : Rat) (pd : Option Date) (x : ProductOvernightIndexCashflow)
    (hmk : ProductOvernightIndexCashflow.make env eff tod name cm sp n pd = .ok x) :
    ProductOvernightIndexCashflow.deserialize env x.serialize = .ok x ∧
    oicSerialization (ProductOvernightIndexCashflow.deserialize env x.serialize) =
      some x.serialize := by
  unfold ProductOvernightIndexCashflow.make at hmk
  cases hreg : env.index_registry name with
  | none => rw [hreg] at hmk; exact absurd hmk (by simp)
  | some idx =>
    rw [hreg] at hmk
    simp only [Except.ok.injEq] at hmk
    subst hmk
    constructor
    · simp [ProductOvernightIndexCashflow.deserialize,
        ProductOvernightIndexCashflow.serialize, from_string_upper_to_string,
        ProductOvernightIndexCashflow.make, hreg,
        TermOrTerminationDate.ofString, Date.ISO, Date_mk_iso, Option.getD]
    · simp [oicSerialization, ProductOvernightIndexCashflow.deserialize,
        ProductOvernightIndexCashflow.serialize, from_string_upper_to_string,
        ProductOvernightIndexCashflow.make, hreg,
        TermOrTerminationDate.ofString, Date.ISO, Date_mk_iso, Option.getD]

/-- Witness for C6: a concrete SOFR cashflow round-trips through
serialization. -/
theorem oic_serialize_roundtrip_witness :
    ProductOvernightIndexCashflow.make envA (Date.mk "2024-01-01")
      (TermOrTerminationDate.date (Date.mk "2025-01-01")) "SOFR"
      CompoundingMethod.COMPOUND 0 100 none = .ok oicSample ∧
    ProductOvernightIndexCashflow.deserialize envA oicSample.serialize =
      .ok oicSample := by
  have hmk : ProductOvernightIndexCashflow.make envA (Date.mk "2024-01-01")
      (TermOrTerminationDate.date (Date.mk "2025-01-01")) "SOFR"
      CompoundingMethod.COMPOUND 0 100 none = .ok oicSample := by decide
  exact ⟨hmk,
    (oic_serialize_roundtrip envA (Date.mk "2024-01-01")
      (TermOrTerminationDate.date (Date.mk "2025-01-01")) "SOFR"
      CompoundingMethod.COMPOUND 0 100 none oicSample hmk).1⟩

/-- Counterexample to C7 as stated: a bullet cashflow takes its
`long_or_short` flag as an explicit constructor argument, so a product
with notional 1 ≥ 0 can carry SHORT; and a swap with notional 0 derives
SHORT although 0 ≥ 0, because the swap uses a strict comparison. -/
theorem long_or_short_flag_counterexample :
    (ProductBulletCashflow.make (Date.mk "2024-01-01") (Currency.mk "USD") 1
      LongOrShort.SHORT none).long_or_short_ = LongOrShort.SHORT ∧
    (1 : Rat) ≥ 0 ∧
    swapLongOrShort (ProductRFRSwap.make envA swapArgsZero) =
      some LongOrShort.SHORT ∧
    (0 : Rat) ≥ 0 := by
  refine ⟨rfl, by decide, ?_, by decide⟩
  rfl

/-- C7 (amended): `ProductFixedAccrued` and
`ProductOvernightIndexCashflow` derive `long_or_short` as LONG iff
`notional >= 0`; `ProductRFRSwap` derives it as LONG iff `notional > 0`
(strictly); `ProductBulletCashflow` takes the flag as an explicit
constructor argument and stores it unchanged. -/
theorem long_or_short_derivation (env : Env) :
    (∀ (eff term : Date) (ccy : Currency) (n : Rat) (basis : AccrualBasis)
      (pd : Option Date) (bdc : BusinessDayConvention) (hc : HolidayConvention),
      (ProductFixedAccrued.make env eff term ccy n basis pd bdc hc).long_or_short_ =
        if n ≥ 0 then LongOrShort.LONG else LongOrShort.SHORT) ∧
    (∀ (eff : Date) (tod : TermOrTerminationDate) (name : String)
      (cm : CompoundingMethod) (sp n : Rat) (pd : Option Date)
      (idx : OvernightIndex), env.index_registry name = some idx →
      oicLongOrShort (ProductOvernightIndexCashflow.make env eff tod name cm sp n pd) =
        some (if n ≥ 0 then LongOrShort.LONG else LongOrShort.SHORT)) ∧
    (∀ (a : RFRSwapArgs) (idx : OvernightIndex),
      env.index_registry a.on_index = some idx →
      swapLongOrShort (ProductRFRSwap.make env a) =
        some (if a.notional > 0 then LongOrShort.LONG else LongOrShort.SHORT)) ∧
    (∀ (d : Date) (ccy : Currency) (n : Rat) (ls : LongOrShort)
      (pd : Option Date),
      (ProductBulletCashflow.make d ccy n ls pd).long_or_short_ = ls) := by
  refine ⟨fun _ _ _ _ _ _ _ _ => rfl, ?_, ?_, fun _ _ _ _ _ => rfl⟩
  · intro eff tod name cm sp n pd idx hidx
    simp [ProductOvernightIndexCashflow.make, hidx, oicLongOrShort]
  · intro a idx hidx
    simp only [ProductRFRSwap.make, hidx]
    rw [make_float_only_eq env
      (a.floatingLegStreamArgs (a.resolvedTermination env idx)
        (Currency.mk idx.currencyCode)) rfl rfl hidx]
    rw [make_fixed_only_eq env
      (a.fixedLegStreamArgs (a.resolvedTermination env idx)
        (Currency.mk idx.currencyCode)) rfl rfl]
    simp [swapLongOrShort]

/-- Witness for C7 (amended): the derivations evaluated on concrete
products — a negative fixed-accrued notional gives SHORT, the
zero-notional swap gives SHORT under the strict comparison, and the
bullet cashflow stores the explicit flag. -/
theorem long_or_short_derivation_witness :
    envA.index_registry "SOFR" = some sofrIndex ∧
    (ProductFixedAccrued.make envA (Date.mk "2024-01-01") (Date.mk "2024-07-01")
      (Currency.mk "USD") (-3) (AccrualBasis.mk "ACT360") none
      (BusinessDayConvention.mk "F") (HolidayConvention.mk "USGS")).long_or_short_ =
      (if (-3 : Rat) ≥ 0 then LongOrShort.LONG else LongOrShort.SHORT) ∧
    swapLongOrShort (ProductRFRSwap.make envA swapArgsZero) =
      some (if (0 : Rat) > 0 then LongOrShort.LONG else LongOrShort.SHORT) ∧
    (ProductBulletCashflow.make (Date.mk "2024-01-01") (Currency.mk "USD") 1
      LongOrShort.SHORT none).long_or_short_ = LongOrShort.SHORT := by
  have h := long_or_short_derivation envA
  exact ⟨rfl, h.1 _ _ _ _ _ _ _ _, h.2.2.1 swapArgsZero sofrIndex rfl,
    h.2.2.2 _ _ _ _ _⟩

/-- C8: a termination given as a tenor is resolved by advancing the
effective date under the resolved index's fixing calendar and
business-day convention, both for overnight cashflows and for swaps; an
explicit termination date is used unchanged. -/
theorem termination_date_resolution (env : Env) (idx : OvernightIndex) :
    (∀ (eff d : Date) (name : String) (cm : CompoundingMethod) (sp n : Rat)
      (pd : Option Date), env.index_registry name = some idx →
      oicTerminationDate (ProductOvernightIndexCashflow.make env eff
        (TermOrTerminationDate.date d) name cm sp n pd) = some d) ∧
    (∀ (eff : Date) (p : Period) (name : String) (cm : CompoundingMethod)
      (sp n : Rat) (pd : Option Date), env.index_registry name = some idx →
      oicTerminationDate (ProductOvernightIndexCashflow.make env eff
        (TermOrTerminationDate.term p) name cm sp n pd) =
        some (env.advance idx.fixingCalendar eff p idx.businessDayConvention)) ∧
    (∀ (a : RFRSwapArgs) (d : Date), env.index_registry a.on_index = some idx →
      a.term_or_termination_date = TermOrTerminationDate.date d →
      swapTerminationDate (ProductRFRSwap.make env a) = some d) ∧
    (∀ (a : RFRSwapArgs) (p : Period), env.index_registry a.on_index = some idx →
      a.term_or_termination_date = TermOrTerminationDate.term p →
      swapTerminationDate (ProductRFRSwap.make env a) =
        some (env.advance idx.fixingCalendar a.effective_date p
          idx.businessDayConvention)) := by
  refine ⟨?_, ?_, ?_, ?_⟩
  · intro eff d name cm sp n pd hidx
    simp [ProductOvernightIndexCashflow.make, hidx, oicTerminationDate]
  · intro eff p name cm sp n pd hidx
    simp [ProductOvernightIndexCashflow.make, hidx, oicTerminationDate]
  · intro a d hidx htod
    simp only [ProductRFRSwap.make, hidx]
    rw [make_float_only_eq env
      (a.floatingLegStreamArgs (a.resolvedTermination env idx)
        (Currency.mk idx.currencyCode)) rfl rfl hidx]
    rw [make_fixed_only_eq env
      (a.fixedLegStreamArgs (a.resolvedTermination env idx)
        (Currency.mk idx.currencyCode)) rfl rfl]
    simp [swapTerminationDate, RFRSwapArgs.resolvedTermination, htod]
  · intro a p hidx htod
    simp only [ProductRFRSwap.make, hidx]
    rw [make_float_only_eq env
      (a.floatingLegStreamArgs (a.resolvedTermination env idx)
        (Currency.mk idx.currencyCode)) rfl rfl hidx]
    rw [make_fixed_only_eq env
      (a.fixedLegStreamArgs (a.resolvedTermination env idx)
        (Currency.mk idx.currencyCode)) rfl rfl]
    simp [swapTerminationDate, RFRSwapArgs.resolvedTermination, htod]

/-- Witness for C8: the explicit date is kept for a concrete overnight
cashflow, and the tenor-based swap's termination is the advanced date. -/
theorem termination_date_resolution_witness :
    envA.index_registry "SOFR" = some sofrIndex ∧
    oicTerminationDate (ProductOvernightIndexCashflow.make envA
      (Date.mk "2024-01-01") (TermOrTerminationDate.date (Date.mk "2025-01-01"))
      "SOFR" CompoundingMethod.COMPOUND 0 100 none) =
      some (Date.mk "2025-01-01") ∧
    swapTerminationDate (ProductRFRSwap.make envA swapArgsTerm) =
      some (envA.advance sofrIndex.fixingCalendar swapArgsTerm.effective_date
        (Period.mk "1Y") sofrIndex.businessDayConvention) := by
  have h := termination_date_resolution envA sofrIndex
  exact ⟨rfl, h.1 _ _ _ _ _ _ _ rfl, h.2.2.2 swapArgsTerm (Period.mk "1Y") rfl rfl⟩

end FIL
